import Mathlib

/-!
# ArgoCD repository resource handlers

A shallow embedding of `argocd/resource_argocd_repository.go` and
`argocd/structure_repository_credentials.go`.

* Go strings are `String`; a non-nil `error` is the text its `Error()` method returns;
  a possibly-nil pointer or error is an `Option`.
* `*schema.ResourceData` is passed explicitly: every handler returns the record as it is
  when the handler stops, the remote and helper calls it made (in order), and how it stopped.
* The remote client, the feature probe, the helpers of the package that live in other files
  (`expandRepository`, `flattenRepository`, `persistToState`) and the text that `fmt` produces
  for a `%s` operand that is a pointer to a structure are parameters.
* `tokenMutexConfiguration` only brackets the remote calls and is not represented.
-/

namespace Argocd

/-! ## Go values -/

/-- A non-nil Go `error`, represented by the text of `err.Error()`. -/
abbrev GoError := String

/-- Scan behind `strings.Contains`: is `sub` a contiguous part of the first list? -/
def stringsContainsAux : List Char → List Char → Bool
  | [], sub => sub.isEmpty
  | c :: cs, sub => sub.isPrefixOf (c :: cs) || stringsContainsAux cs sub

/-- Go `strings.Contains(s, substr)`. -/
def stringsContains (s substr : String) : Bool :=
  stringsContainsAux s.data substr.data

/-! ## ArgoCD API types (`application`, `repository` packages) -/

/-- Type `application.ConnectionState`, the fields the handlers read. -/
structure ConnectionState where
  Status : String := ""
  Message : String := ""
deriving DecidableEq, Repr

/-- Constant `application.ConnectionStatusFailed`. -/
def ConnectionStatusFailed : String := "Failed"

/-- Type `application.Repository`; `{}` is the zero value `application.Repository{}`. -/
structure Repository where
  Repo : String := ""
  Username : String := ""
  Password : String := ""
  SSHPrivateKey : String := ""
  ConnectionState : ConnectionState := {}
  TLSClientCertData : String := ""
  TLSClientCertKey : String := ""
deriving DecidableEq, Repr

/-- Type `application.RepositoryList`. -/
structure RepositoryList where
  Items : List Repository := []
deriving DecidableEq, Repr

/-- Type `application.RepoCreds`. -/
structure RepoCreds where
  URL : String := ""
  Username : String := ""
  Password : String := ""
  SSHPrivateKey : String := ""
  TLSClientCertData : String := ""
  TLSClientCertKey : String := ""
deriving DecidableEq, Repr

/-- Type `repository.RepoCreateRequest`. -/
structure RepoCreateRequest where
  Repo : Repository
  Upsert : Bool := false
  CredsOnly : Bool := false
deriving DecidableEq, Repr

/-- Type `repository.RepoUpdateRequest`. -/
structure RepoUpdateRequest where
  Repo : Repository
deriving DecidableEq, Repr

/-- Type `repository.RepoQuery`. -/
structure RepoQuery where
  Repo : String := ""
  ForceRefresh : Bool := false
deriving DecidableEq, Repr

/-! ## Terraform SDK types (`schema`, `diag` packages) -/

/-- Type `schema.ResourceData`: the identifier and the string attributes by name. -/
structure ResourceData where
  id : String := ""
  attrs : List (String × String) := []
deriving DecidableEq, Repr

namespace ResourceData

/-- Method `d.Id()`. -/
def Id (d : ResourceData) : String := d.id

/-- Method `d.SetId(v)`. -/
def SetId (d : ResourceData) (v : String) : ResourceData := { d with id := v }

/-- The stored value of an attribute, `none` when the record has none. -/
def field (d : ResourceData) (key : String) : Option String := d.attrs.lookup key

/-- Method `d.GetOk(key)`: the value, and whether it is set to a non-zero value. -/
def GetOk (d : ResourceData) (key : String) : String × Bool :=
  match d.field key with
  | some v => (v, v != "")
  | none => ("", false)

end ResourceData

/-- Type `diag.Severity`. -/
inductive Severity where
  | Error
  | Warning
deriving DecidableEq, Repr

/-- Type `diag.Diagnostic`. -/
structure Diagnostic where
  Severity : Severity
  Summary : String := ""
  Detail : String := ""
deriving DecidableEq, Repr

/-- The value a handler hands back with `return`. -/
inductive Returned where
  /-- The statement `return nil`. -/
  | nil
  /-- A `diag.Diagnostics` value. -/
  | diagnostics (ds : List Diagnostic)
  /-- A non-nil `error` handed back as it is (`return err`). -/
  | error (err : GoError)
deriving DecidableEq, Repr

/-- Does the returned value report a failure: an error-severity diagnostic
(`Diagnostics.HasError`) or a non-nil error? -/
def Returned.hasError : Returned → Bool
  | .nil => false
  | .diagnostics ds => ds.any (fun x => decide (x.Severity = Severity.Error))
  | .error _ => true

/-- How a handler stops. -/
inductive Completion where
  | returned (v : Returned)
  /-- A run-time panic: `Error()` called on a nil `error`. -/
  | panicked
deriving DecidableEq, Repr

/-- Did the handler return, and without reporting a failure? -/
def Completion.succeeded : Completion → Bool
  | .returned v => !v.hasError
  | .panicked => false

/-- Did the handler return a value that reports a failure? -/
def Completion.fatal : Completion → Bool
  | .returned v => v.hasError
  | .panicked => false

/-! ## Collaborators -/

/-- The feature flags of the provider; the handlers name `featureRepositoryGet` only. -/
inductive Feature where
  | featureRepositoryGet
deriving DecidableEq, Repr

/-- The remote and helper calls a handler makes. -/
inductive Call where
  | isFeatureSupported (feature : Feature)
  | CreateRepository (req : RepoCreateRequest)
  | Get (q : RepoQuery)
  | ListRepositories (q : RepoQuery)
  | UpdateRepository (req : RepoUpdateRequest)
  | DeleteRepository (q : RepoQuery)
  | flattenRepository (r : Option Repository)
deriving DecidableEq, Repr

/-- Interface `repository.RepositoryServiceClient`: each method answers with a result that may
be nil and an error that may be nil. The response of `DeleteRepository` is discarded by its
caller and left out. -/
structure RepositoryClient where
  CreateRepository : RepoCreateRequest → Option Repository × Option GoError
  Get : RepoQuery → Option Repository × Option GoError
  ListRepositories : RepoQuery → Option RepositoryList × Option GoError
  UpdateRepository : RepoUpdateRequest → Option Repository × Option GoError
  DeleteRepository : RepoQuery → Option GoError

/-- Type `ServerInterface` (the `meta` argument). -/
structure ServerInterface where
  RepositoryClient : RepositoryClient
  isFeatureSupported : Feature → Bool × Option GoError

/-- What the handlers use and the two files do not define. -/
structure Externals where
  /-- Helper `expandRepository(d)`. -/
  expandRepository : ResourceData → Repository
  /-- Helper `flattenRepository(ctx, r, d)`: the record afterwards and how the call ends. -/
  flattenRepository : Option Repository → ResourceData → ResourceData × Completion
  /-- Text `fmt` writes for the verb `%s` applied to a `*application.Repository`, a message
  type of the ArgoCD API that comes with its own `String` method. -/
  fmtRepository : Repository → String
  /-- Text `fmt` writes for the verb `%s` applied to a `*schema.ResourceData`, a type without
  a `String` method: the structure is printed field by field, the state behind it and the
  identifier that state holds included. -/
  fmtResourceData : ResourceData → String

/-- What a handler leaves behind. -/
structure Outcome where
  /-- The record when the handler stops. -/
  d : ResourceData
  /-- The remote and helper calls made, in order. -/
  calls : List Call
  completion : Completion
deriving DecidableEq, Repr

/-! ## `structure_repository_credentials.go` -/

/-- Function `expandRepositoryCredentials`. -/
def expandRepositoryCredentials (d : ResourceData) : RepoCreds :=
  let repoCreds : RepoCreds := {}
  let repoCreds :=
    match d.GetOk "url" with
    | (v, true) => { repoCreds with URL := v }
    | (_, false) => repoCreds
  let repoCreds :=
    match d.GetOk "username" with
    | (v, true) => { repoCreds with Username := v }
    | (_, false) => repoCreds
  let repoCreds :=
    match d.GetOk "password" with
    | (v, true) => { repoCreds with Password := v }
    | (_, false) => repoCreds
  let repoCreds :=
    match d.GetOk "ssh_private_key" with
    | (v, true) => { repoCreds with SSHPrivateKey := v }
    | (_, false) => repoCreds
  let repoCreds :=
    match d.GetOk "tls_client_cert_data" with
    | (v, true) => { repoCreds with TLSClientCertData := v }
    | (_, false) => repoCreds
  let repoCreds :=
    match d.GetOk "tls_client_cert_key" with
    | (v, true) => { repoCreds with TLSClientCertKey := v }
    | (_, false) => repoCreds
  repoCreds

/-- The map `r` that `flattenRepositoryCredentials` builds, in the order it is written. -/
def flattenRepositoryCredentialsMap (repository : RepoCreds) : List (String × String) :=
  [("url", repository.URL),
   ("username", repository.Username),
   ("tls_client_cert_data", repository.TLSClientCertData)]

/-- The loop `for k, v := range r` over the entries in the order they are visited:
it stops at the first `persistToState` that reports an error. -/
def flattenRepositoryCredentialsLoop
    (persistToState : String → String → ResourceData → ResourceData × Option GoError) :
    List (String × String) → ResourceData → ResourceData × Option GoError
  | [], d => (d, none)
  | (k, v) :: rest, d =>
    match persistToState k v d with
    | (d1, some err) => (d1, some err)
    | (d1, none) => flattenRepositoryCredentialsLoop persistToState rest d1

/-- Function `flattenRepositoryCredentials`. The helper `persistToState(k, v, d)` gives the
record afterwards and its error; `visit` is the order in which `range` walks the map, which Go
leaves open. -/
def flattenRepositoryCredentials
    (persistToState : String → String → ResourceData → ResourceData × Option GoError)
    (visit : List (String × String) → List (String × String))
    (repository : RepoCreds) (d : ResourceData) : ResourceData × Option GoError :=
  flattenRepositoryCredentialsLoop persistToState
    (visit (flattenRepositoryCredentialsMap repository)) d

/-- Reads repeated one after the other: each flattens one remote value with one visiting order. -/
def flattenRepositoryCredentialsRepeated
    (persistToState : String → String → ResourceData → ResourceData × Option GoError) :
    List ((List (String × String) → List (String × String)) × RepoCreds) →
      ResourceData → ResourceData
  | [], d => d
  | (visit, repository) :: rest, d =>
    flattenRepositoryCredentialsRepeated persistToState rest
      (flattenRepositoryCredentials persistToState visit repository d).1

/-! ## `resource_argocd_repository.go` -/

/-- Function `resourceArgoCDRepositoryRead`, lines 75–91: the feature probe and the two `return`
statements that follow it. The `if err != nil` block returns the empty `diag.Diagnostics{}`; the
`return` after the block is unconditional, so it runs exactly when `err` is nil, and building
its diagnostic evaluates `err.Error()` on that nil error. -/
def resourceArgoCDRepositoryRead (_ext : Externals) (server : ServerInterface)
    (d : ResourceData) : Outcome :=
  match server.isFeatureSupported Feature.featureRepositoryGet with
  | (_, some _) =>
    ⟨d, [Call.isFeatureSupported Feature.featureRepositoryGet],
      Completion.returned (Returned.diagnostics [])⟩
  | (_, none) =>
    ⟨d, [Call.isFeatureSupported Feature.featureRepositoryGet], Completion.panicked⟩

/-- How the loop `for i, _r := range rl.Items` ends. -/
inductive ScanEnd where
  /-- Left by `break` with `r = _r`. -/
  | matched (r : Repository)
  /-- Left by `d.SetId(""); return nil` at the last index. -/
  | cleared
  /-- Ran out of items: nothing assigned, nothing returned. -/
  | exhausted
deriving DecidableEq, Repr

/-- The loop of lines 128–138 from index `i` on, over the items not yet visited; `len` is
`len(rl.Items)` and `id` is `d.Id()`. -/
def scanItems (id : String) (len : Nat) : Nat → List Repository → ScanEnd
  | _, [] => ScanEnd.exhausted
  | i, _r :: rest =>
    if _r.Repo = id then ScanEnd.matched _r
    else if (i : Int) = (len : Int) - 1 then ScanEnd.cleared
    else scanItems id len (i + 1) rest

/-- The call `return flattenRepository(ctx, r, d)` of line 140, after the calls already made. -/
def returnFlattenRepository (ext : Externals) (calls : List Call) (r : Option Repository)
    (d : ResourceData) : Outcome :=
  ⟨(ext.flattenRepository r d).1, calls ++ [Call.flattenRepository r],
    (ext.flattenRepository r d).2⟩

/-- Lines 92–140 of `resourceArgoCDRepositoryRead`: the `switch` on
`featureRepositoryGetSupported` and the final `flattenRepository`. They stand after the
unconditional `return` of line 84, so `resourceArgoCDRepositoryRead` never runs them. -/
def resourceArgoCDRepositoryReadSwitch (ext : Externals) (server : ServerInterface)
    (featureRepositoryGetSupported : Bool) (d : ResourceData) : Outcome :=
  let q : RepoQuery := { Repo := d.Id, ForceRefresh := true }
  match featureRepositoryGetSupported with
  | true =>
    match server.RepositoryClient.Get q with
    | (_, some err) =>
      if stringsContains err "NotFound" then
        ⟨d.SetId "", [Call.Get q], Completion.returned Returned.nil⟩
      else
        ⟨d, [Call.Get q], Completion.returned (Returned.error err)⟩
    | (r, none) => returnFlattenRepository ext [Call.Get q] r d
  | false =>
    match server.RepositoryClient.ListRepositories q with
    | (_, some err) => ⟨d, [Call.ListRepositories q], Completion.returned (Returned.error err)⟩
    | (none, none) => ⟨d.SetId "", [Call.ListRepositories q], Completion.returned Returned.nil⟩
    | (some rl, none) =>
      match scanItems d.Id rl.Items.length 0 rl.Items with
      | ScanEnd.matched _r => returnFlattenRepository ext [Call.ListRepositories q] (some _r) d
      | ScanEnd.cleared =>
        ⟨d.SetId "", [Call.ListRepositories q], Completion.returned Returned.nil⟩
      | ScanEnd.exhausted =>
        returnFlattenRepository ext [Call.ListRepositories q] (some {}) d

/-- The statement `return resourceArgoCDRepositoryRead(...)` that ends Create and Update, after
the calls already made. -/
def returnRead (ext : Externals) (server : ServerInterface) (calls : List Call)
    (d : ResourceData) : Outcome :=
  ⟨(resourceArgoCDRepositoryRead ext server d).d,
    calls ++ (resourceArgoCDRepositoryRead ext server d).calls,
    (resourceArgoCDRepositoryRead ext server d).completion⟩

/-- Function `resourceArgoCDRepositoryCreate`. The source leaves out the brace that closes the
`if err != nil` and the `if r == nil` blocks (lines 51 and 58); the three tests are taken one
after the other, as they are indented. `fmt.Errorf(...)` in the `Summary` position is taken as
its text. -/
def resourceArgoCDRepositoryCreate (ext : Externals) (server : ServerInterface)
    (d : ResourceData) : Outcome :=
  let repo := ext.expandRepository d
  let req : RepoCreateRequest := { Repo := repo, Upsert := false, CredsOnly := false }
  match server.RepositoryClient.CreateRepository req with
  | (_, some err) =>
    ⟨d, [Call.CreateRepository req], Completion.returned (Returned.diagnostics [
      { Severity := Severity.Error,
        Summary := "Repository " ++ ext.fmtRepository repo ++ " not found",
        Detail := err }])⟩
  | (none, none) =>
    ⟨d, [Call.CreateRepository req], Completion.returned (Returned.diagnostics [
      { Severity := Severity.Error,
        Summary := "ArgoCD did not return an error or a repository result" }])⟩
  | (some r, none) =>
    if r.ConnectionState.Status = ConnectionStatusFailed then
      ⟨d, [Call.CreateRepository req], Completion.returned (Returned.diagnostics [
        { Severity := Severity.Error,
          Summary := "Could not connect to repository " ++ repo.Repo ++ ": "
            ++ r.ConnectionState.Message }])⟩
    else
      returnRead ext server [Call.CreateRepository req] (d.SetId r.Repo)

/-- Function `resourceArgoCDRepositoryUpdate`. In the `r == nil` block the diagnostic is built
with `Detail: err.Error()` while `err` is nil. -/
def resourceArgoCDRepositoryUpdate (ext : Externals) (server : ServerInterface)
    (d : ResourceData) : Outcome :=
  let repo := ext.expandRepository d
  let req : RepoUpdateRequest := { Repo := repo }
  match server.RepositoryClient.UpdateRepository req with
  | (_, some err) =>
    if stringsContains err "NotFound" then
      ⟨d.SetId "", [Call.UpdateRepository req], Completion.returned Returned.nil⟩
    else
      ⟨d, [Call.UpdateRepository req], Completion.returned (Returned.error err)⟩
  | (none, none) => ⟨d, [Call.UpdateRepository req], Completion.panicked⟩
  | (some r, none) =>
    if r.ConnectionState.Status = ConnectionStatusFailed then
      ⟨d, [Call.UpdateRepository req], Completion.returned (Returned.diagnostics [
        { Severity := Severity.Error,
          Summary := "Could not connect to repository " ++ repo.Repo ++ ": "
            ++ r.ConnectionState.Message }])⟩
    else
      returnRead ext server [Call.UpdateRepository req] (d.SetId r.Repo)

/-- Function `resourceArgoCDRepositoryDelete`. The `%s` operand of the summary is the record
`d` itself. The closing `return diags` names a variable the function does not declare; it is
taken as the empty `diag.Diagnostics`. -/
def resourceArgoCDRepositoryDelete (ext : Externals) (server : ServerInterface)
    (d : ResourceData) : Outcome :=
  let q : RepoQuery := { Repo := d.Id }
  match server.RepositoryClient.DeleteRepository q with
  | some err =>
    if stringsContains err "NotFound" then
      ⟨d.SetId "", [Call.DeleteRepository q], Completion.returned (Returned.diagnostics [])⟩
    else
      ⟨d, [Call.DeleteRepository q], Completion.returned (Returned.diagnostics [
        { Severity := Severity.Error,
          Summary := "Repository " ++ ext.fmtResourceData d ++ " not found",
          Detail := err }])⟩
  | none =>
    ⟨d.SetId "", [Call.DeleteRepository q], Completion.returned (Returned.diagnostics [])⟩

/-! ## Sample collaborators -/

/-- A record that declares the repository of the scenarios and has no identifier yet. -/
def sampleRecord : ResourceData :=
  { id := "", attrs := [("repo", "https://git.example.com/repo.git"), ("password", "s3cret")] }

/-- Helpers and renderings for the samples: `expandRepository` reads the attribute `repo`,
`flattenRepository` writes it back, a repository is rendered with its `Repo` field and a
record with the identifier of its state. -/
def sampleExternals : Externals where
  expandRepository d := { Repo := (d.GetOk "repo").1 }
  flattenRepository r d :=
    match r with
    | some x => ({ d with attrs := ("repo", x.Repo) :: d.attrs }, Completion.returned Returned.nil)
    | none => (d, Completion.panicked)
  fmtRepository r := "&Repository\x7bRepo:" ++ r.Repo ++ ",\x7d"
  fmtResourceData d := "&\x7bmap[] %!s(*terraform.InstanceState=&\x7b" ++ d.id ++ "\x7d)\x7d"

/-- A client whose every call answers with nil and no error. -/
def silentClient : RepositoryClient where
  CreateRepository _ := (none, none)
  Get _ := (none, none)
  ListRepositories _ := (none, none)
  UpdateRepository _ := (none, none)
  DeleteRepository _ := none

/-- A store write for the samples: `persistToState` puts the pair in front of the attributes. -/
def samplePersistToState (k v : String) (d : ResourceData) : ResourceData × Option GoError :=
  ({ d with attrs := (k, v) :: d.attrs }, none)

/-- A record whose identifier is the key of the repository of the scenarios. -/
def storedRecord : ResourceData :=
  { id := "https://git.example.com/repo.git",
    attrs := [("repo", "https://git.example.com/repo.git"), ("password", "s3cret")] }

/-- A server made of a client and the fixed answer of its feature probe. -/
def sampleServer (client : RepositoryClient) (probe : Bool × Option GoError) :
    ServerInterface :=
  { RepositoryClient := client, isFeatureSupported := fun _ => probe }

/-- A client whose create and update calls answer with the repository they were sent, its
connection state `Failed` with the message of the scenario. -/
def failedConnectionClient : RepositoryClient :=
  { silentClient with
    CreateRepository := fun req =>
      (some { req.Repo with
        ConnectionState := { Status := "Failed", Message := "ssh: handshake failed" } }, none)
    UpdateRepository := fun req =>
      (some { req.Repo with
        ConnectionState := { Status := "Failed", Message := "ssh: handshake failed" } }, none) }

/-- A client whose every call fails with a not-found error. -/
def notFoundClient : RepositoryClient where
  CreateRepository _ := (none, some "rpc error: code = NotFound desc = repo not found")
  Get _ := (none, some "rpc error: code = NotFound desc = repo not found")
  ListRepositories _ := (none, some "rpc error: code = NotFound desc = repo not found")
  UpdateRepository _ := (none, some "rpc error: code = NotFound desc = repo not found")
  DeleteRepository _ := some "rpc error: code = NotFound desc = repo not found"

/-- A client whose every call fails with an error that is not a not-found error. -/
def deniedClient : RepositoryClient where
  CreateRepository _ := (none, some "rpc error: code = PermissionDenied")
  Get _ := (none, some "rpc error: code = PermissionDenied")
  ListRepositories _ := (none, some "rpc error: code = PermissionDenied")
  UpdateRepository _ := (none, some "rpc error: code = PermissionDenied")
  DeleteRepository _ := some "rpc error: code = PermissionDenied"

/-- A client whose list call answers with a list that is not nil and has no items. -/
def emptyListClient : RepositoryClient :=
  { silentClient with ListRepositories := fun _ => (some { Items := [] }, none) }

/-- A client whose list call answers with three items: one whose key only starts with the
key of the scenarios, then two that carry exactly that key. -/
def threeItemsClient : RepositoryClient :=
  { silentClient with
    ListRepositories := fun _ =>
      (some { Items := [
        { Repo := "https://git.example.com/repo.git.bak", Username := "other" },
        { Repo := "https://git.example.com/repo.git", Username := "first" },
        { Repo := "https://git.example.com/repo.git", Username := "second" }] }, none) }

/-- Remote credentials whose three secret fields are filled. -/
def sampleRemoteCreds : RepoCreds :=
  { URL := "https://git.example.com", Username := "remote-user", Password := "remote-password",
    SSHPrivateKey := "remote-ssh-key", TLSClientCertData := "remote-cert",
    TLSClientCertKey := "remote-cert-key" }

/-- A record that declares credentials with its three secrets set. -/
def sampleCredsRecord : ResourceData :=
  { id := "https://git.example.com",
    attrs := [("url", "https://git.example.com"), ("username", "me"), ("password", "s3cret"),
      ("ssh_private_key", "my-ssh-key"), ("tls_client_cert_key", "my-cert-key")] }

/-! ## Strings -/

theorem stringsContainsAux_iff_infix (s sub : List Char) :
    stringsContainsAux s sub = true ↔ sub <:+: s := by
  induction s with
  | nil => simp [stringsContainsAux]
  | cons c cs ih =>
    simp [stringsContainsAux, List.infix_cons_iff, ih]

theorem stringsContains_iff_infix (s sub : String) :
    stringsContains s sub = true ↔ sub.data <:+: s.data :=
  stringsContainsAux_iff_infix s.data sub.data

theorem infix_append_middle (a b c : String) : b.data <:+: (a ++ b ++ c).data := by
  refine ⟨a.data, c.data, ?_⟩
  simp [String.data_append]

/-! ## Field mapper -/

theorem flattenRepositoryCredentialsLoop_field
    (persistToState : String → String → ResourceData → ResourceData × Option GoError)
    (hframe : ∀ k v d k2, k2 ≠ k → ((persistToState k v d).1).field k2 = d.field k2)
    (key : String) (entries : List (String × String))
    (hkeys : ∀ e ∈ entries, key ≠ e.1) (d : ResourceData) :
    ((flattenRepositoryCredentialsLoop persistToState entries d).1).field key = d.field key := by
  induction entries generalizing d with
  | nil => rfl
  | cons e rest ih =>
    obtain ⟨k, v⟩ := e
    have hk : key ≠ k := hkeys (k, v) (List.mem_cons_self _ _)
    have hstep := hframe k v d key hk
    unfold flattenRepositoryCredentialsLoop
    rcases hp : persistToState k v d with ⟨d1, _ | err⟩
    · rw [hp] at hstep
      simp only
      rw [ih (fun e he => hkeys e (List.mem_cons_of_mem _ he)) d1]
      exact hstep
    · rw [hp] at hstep
      exact hstep

theorem flattenRepositoryCredentials_field
    (persistToState : String → String → ResourceData → ResourceData × Option GoError)
    (hframe : ∀ k v d k2, k2 ≠ k → ((persistToState k v d).1).field k2 = d.field k2)
    (visit : List (String × String) → List (String × String))
    (hvisit : ∀ l, (visit l).Perm l)
    (key : String) (h1 : key ≠ "url") (h2 : key ≠ "username")
    (h3 : key ≠ "tls_client_cert_data") (repository : RepoCreds) (d : ResourceData) :
    ((flattenRepositoryCredentials persistToState visit repository d).1).field key
      = d.field key := by
  unfold flattenRepositoryCredentials
  apply flattenRepositoryCredentialsLoop_field persistToState hframe
  intro e he
  have hmem : e ∈ flattenRepositoryCredentialsMap repository := (hvisit _).subset he
  simp only [flattenRepositoryCredentialsMap, List.mem_cons, List.mem_singleton,
    List.not_mem_nil, or_false] at hmem
  rcases hmem with rfl | rfl | rfl
  · exact h1
  · exact h2
  · exact h3

theorem flattenRepositoryCredentialsRepeated_field
    (persistToState : String → String → ResourceData → ResourceData × Option GoError)
    (hframe : ∀ k v d k2, k2 ≠ k → ((persistToState k v d).1).field k2 = d.field k2)
    (key : String) (h1 : key ≠ "url") (h2 : key ≠ "username")
    (h3 : key ≠ "tls_client_cert_data")
    (reads : List ((List (String × String) → List (String × String)) × RepoCreds))
    (hvisit : ∀ p ∈ reads, ∀ l, (p.1 l).Perm l) (d : ResourceData) :
    (flattenRepositoryCredentialsRepeated persistToState reads d).field key = d.field key := by
  induction reads generalizing d with
  | nil => rfl
  | cons p rest ih =>
    obtain ⟨visit, repository⟩ := p
    unfold flattenRepositoryCredentialsRepeated
    rw [ih (fun q hq => hvisit q (List.mem_cons_of_mem _ hq))]
    exact flattenRepositoryCredentials_field persistToState hframe visit
      (hvisit (visit, repository) (List.mem_cons_self _ _)) key h1 h2 h3 repository d

/-- C5: whatever the remote credentials hold, one flatten, and any number of flattens one after
the other, leave the attributes `password`, `ssh_private_key` and `tls_client_cert_key` of the
record as they were, provided a store write touches the named attribute only. -/
theorem flattenRepositoryCredentials_never_touches_secrets
    (persistToState : String → String → ResourceData → ResourceData × Option GoError)
    (hframe : ∀ k v d k2, k2 ≠ k → ((persistToState k v d).1).field k2 = d.field k2)
    (visit : List (String × String) → List (String × String))
    (hvisit : ∀ l, (visit l).Perm l)
    (reads : List ((List (String × String) → List (String × String)) × RepoCreds))
    (hreads : ∀ p ∈ reads, ∀ l, (p.1 l).Perm l)
    (c : RepoCreds) (d : ResourceData) :
    (((flattenRepositoryCredentials persistToState visit c d).1).field "password"
        = d.field "password"
      ∧ ((flattenRepositoryCredentials persistToState visit c d).1).field "ssh_private_key"
        = d.field "ssh_private_key"
      ∧ ((flattenRepositoryCredentials persistToState visit c d).1).field "tls_client_cert_key"
        = d.field "tls_client_cert_key")
    ∧ ((flattenRepositoryCredentialsRepeated persistToState reads d).field "password"
        = d.field "password"
      ∧ (flattenRepositoryCredentialsRepeated persistToState reads d).field "ssh_private_key"
        = d.field "ssh_private_key"
      ∧ (flattenRepositoryCredentialsRepeated persistToState reads d).field "tls_client_cert_key"
        = d.field "tls_client_cert_key") := by
  refine ⟨⟨?_, ?_, ?_⟩, ?_, ?_, ?_⟩
  · exact flattenRepositoryCredentials_field persistToState hframe visit hvisit _
      (by decide) (by decide) (by decide) c d
  · exact flattenRepositoryCredentials_field persistToState hframe visit hvisit _
      (by decide) (by decide) (by decide) c d
  · exact flattenRepositoryCredentials_field persistToState hframe visit hvisit _
      (by decide) (by decide) (by decide) c d
  · exact flattenRepositoryCredentialsRepeated_field persistToState hframe _
      (by decide) (by decide) (by decide) reads hreads d
  · exact flattenRepositoryCredentialsRepeated_field persistToState hframe _
      (by decide) (by decide) (by decide) reads hreads d
  · exact flattenRepositoryCredentialsRepeated_field persistToState hframe _
      (by decide) (by decide) (by decide) reads hreads d

theorem samplePersistToState_frame (k v : String) (d : ResourceData) (k2 : String)
    (h : k2 ≠ k) : ((samplePersistToState k v d).1).field k2 = d.field k2 := by
  have hne : (k2 == k) = false := by simpa using h
  simp [samplePersistToState, ResourceData.field, List.lookup_cons, hne]

theorem expandRepositoryCredentials_eq (x : ResourceData) :
    expandRepositoryCredentials x =
      { URL := if (x.GetOk "url").2 then (x.GetOk "url").1 else ""
        Username := if (x.GetOk "username").2 then (x.GetOk "username").1 else ""
        Password := if (x.GetOk "password").2 then (x.GetOk "password").1 else ""
        SSHPrivateKey :=
          if (x.GetOk "ssh_private_key").2 then (x.GetOk "ssh_private_key").1 else ""
        TLSClientCertData :=
          if (x.GetOk "tls_client_cert_data").2 then (x.GetOk "tls_client_cert_data").1 else ""
        TLSClientCertKey :=
          if (x.GetOk "tls_client_cert_key").2 then (x.GetOk "tls_client_cert_key").1 else "" } := by
  unfold expandRepositoryCredentials
  generalize x.GetOk "url" = p1
  generalize x.GetOk "username" = p2
  generalize x.GetOk "password" = p3
  generalize x.GetOk "ssh_private_key" = p4
  generalize x.GetOk "tls_client_cert_data" = p5
  generalize x.GetOk "tls_client_cert_key" = p6
  rcases p1 with ⟨v1, _ | _⟩ <;> rcases p2 with ⟨v2, _ | _⟩ <;> rcases p3 with ⟨v3, _ | _⟩ <;>
    rcases p4 with ⟨v4, _ | _⟩ <;> rcases p5 with ⟨v5, _ | _⟩ <;>
    rcases p6 with ⟨v6, _ | _⟩ <;> rfl

/-- C9: each of the six fields of the expanded credentials is the value of its attribute when
`GetOk` reports the attribute set and the empty string otherwise, so it is fixed by what
`GetOk` gives for that one attribute. -/
theorem expandRepositoryCredentials_copies_set_fields (d : ResourceData) :
    ((expandRepositoryCredentials d).URL
        = (if (d.GetOk "url").2 then (d.GetOk "url").1 else "")
      ∧ (expandRepositoryCredentials d).Username
        = (if (d.GetOk "username").2 then (d.GetOk "username").1 else "")
      ∧ (expandRepositoryCredentials d).Password
        = (if (d.GetOk "password").2 then (d.GetOk "password").1 else "")
      ∧ (expandRepositoryCredentials d).SSHPrivateKey
        = (if (d.GetOk "ssh_private_key").2 then (d.GetOk "ssh_private_key").1 else "")
      ∧ (expandRepositoryCredentials d).TLSClientCertData
        = (if (d.GetOk "tls_client_cert_data").2 then (d.GetOk "tls_client_cert_data").1
            else "")
      ∧ (expandRepositoryCredentials d).TLSClientCertKey
        = (if (d.GetOk "tls_client_cert_key").2 then (d.GetOk "tls_client_cert_key").1
            else ""))
    ∧ ∀ d2 : ResourceData,
      (d2.GetOk "url" = d.GetOk "url" →
        (expandRepositoryCredentials d2).URL = (expandRepositoryCredentials d).URL)
      ∧ (d2.GetOk "username" = d.GetOk "username" →
        (expandRepositoryCredentials d2).Username = (expandRepositoryCredentials d).Username)
      ∧ (d2.GetOk "password" = d.GetOk "password" →
        (expandRepositoryCredentials d2).Password = (expandRepositoryCredentials d).Password)
      ∧ (d2.GetOk "ssh_private_key" = d.GetOk "ssh_private_key" →
        (expandRepositoryCredentials d2).SSHPrivateKey
          = (expandRepositoryCredentials d).SSHPrivateKey)
      ∧ (d2.GetOk "tls_client_cert_data" = d.GetOk "tls_client_cert_data" →
        (expandRepositoryCredentials d2).TLSClientCertData
          = (expandRepositoryCredentials d).TLSClientCertData)
      ∧ (d2.GetOk "tls_client_cert_key" = d.GetOk "tls_client_cert_key" →
        (expandRepositoryCredentials d2).TLSClientCertKey
          = (expandRepositoryCredentials d).TLSClientCertKey) := by
  have key : ∀ x : ResourceData,
      (expandRepositoryCredentials x).URL
          = (if (x.GetOk "url").2 then (x.GetOk "url").1 else "")
        ∧ (expandRepositoryCredentials x).Username
          = (if (x.GetOk "username").2 then (x.GetOk "username").1 else "")
        ∧ (expandRepositoryCredentials x).Password
          = (if (x.GetOk "password").2 then (x.GetOk "password").1 else "")
        ∧ (expandRepositoryCredentials x).SSHPrivateKey
          = (if (x.GetOk "ssh_private_key").2 then (x.GetOk "ssh_private_key").1 else "")
        ∧ (expandRepositoryCredentials x).TLSClientCertData
          = (if (x.GetOk "tls_client_cert_data").2 then (x.GetOk "tls_client_cert_data").1
              else "")
        ∧ (expandRepositoryCredentials x).TLSClientCertKey
          = (if (x.GetOk "tls_client_cert_key").2 then (x.GetOk "tls_client_cert_key").1
              else "") := by
    intro x
    rw [expandRepositoryCredentials_eq x]
    exact ⟨rfl, rfl, rfl, rfl, rfl, rfl⟩
  refine ⟨key d, fun d2 => ?_⟩
  obtain ⟨a1, a2, a3, a4, a5, a6⟩ := key d
  obtain ⟨b1, b2, b3, b4, b5, b6⟩ := key d2
  refine ⟨fun h => ?_, fun h => ?_, fun h => ?_, fun h => ?_, fun h => ?_, fun h => ?_⟩
  · rw [a1, b1, h]
  · rw [a2, b2, h]
  · rw [a3, b3, h]
  · rw [a4, b4, h]
  · rw [a5, b5, h]
  · rw [a6, b6, h]

/-! ## Create -/

/-- C1 (as stated, refuted): in the scenario of the claim, where create answers without error
and with connection state `Failed`, Create reports the failure and the identifier of the record
is still empty afterwards, not the repository URL. -/
theorem create_failed_connection_identifier_not_set :
    (sampleServer failedConnectionClient (true, none)).RepositoryClient.CreateRepository
        { Repo := sampleExternals.expandRepository sampleRecord }
      = (some { Repo := "https://git.example.com/repo.git",
                ConnectionState := { Status := ConnectionStatusFailed,
                                     Message := "ssh: handshake failed" } }, none)
    ∧ (sampleExternals.expandRepository sampleRecord).Repo = "https://git.example.com/repo.git"
    ∧ (resourceArgoCDRepositoryCreate sampleExternals
        (sampleServer failedConnectionClient (true, none)) sampleRecord).completion.fatal = true
    ∧ (resourceArgoCDRepositoryCreate sampleExternals
        (sampleServer failedConnectionClient (true, none)) sampleRecord).d.Id = ""
    ∧ (resourceArgoCDRepositoryCreate sampleExternals
        (sampleServer failedConnectionClient (true, none)) sampleRecord).d.Id
      ≠ "https://git.example.com/repo.git" := by
  decide

/-- C1 (amended): when create answers without error and with a repository whose connection
state is `Failed`, Create makes no further call and returns one error-severity diagnostic whose
summary contains the repository URL and the remote message, and it leaves the record, its
identifier included, as it was before the call. -/
theorem create_failed_connection_reports_and_keeps_record
    (ext : Externals) (server : ServerInterface) (d : ResourceData) (r : Repository)
    (hcall : server.RepositoryClient.CreateRepository
      { Repo := ext.expandRepository d, Upsert := false, CredsOnly := false } = (some r, none))
    (hfailed : r.ConnectionState.Status = ConnectionStatusFailed) :
    ∃ diagnostic : Diagnostic,
      resourceArgoCDRepositoryCreate ext server d
        = ⟨d, [Call.CreateRepository
                { Repo := ext.expandRepository d, Upsert := false, CredsOnly := false }],
            Completion.returned (Returned.diagnostics [diagnostic])⟩
      ∧ diagnostic.Severity = Severity.Error
      ∧ (ext.expandRepository d).Repo.data <:+: diagnostic.Summary.data
      ∧ r.ConnectionState.Message.data <:+: diagnostic.Summary.data
      ∧ (resourceArgoCDRepositoryCreate ext server d).completion.fatal = true
      ∧ (resourceArgoCDRepositoryCreate ext server d).d = d
      ∧ (resourceArgoCDRepositoryCreate ext server d).d.Id = d.Id := by
  have hrun : resourceArgoCDRepositoryCreate ext server d
      = ⟨d, [Call.CreateRepository
              { Repo := ext.expandRepository d, Upsert := false, CredsOnly := false }],
          Completion.returned (Returned.diagnostics [
            { Severity := Severity.Error,
              Summary := "Could not connect to repository " ++ (ext.expandRepository d).Repo
                ++ ": " ++ r.ConnectionState.Message }])⟩ := by
    simp only [resourceArgoCDRepositoryCreate, hcall, hfailed, if_true]
  refine ⟨_, hrun, rfl, ?_, ?_, ?_, ?_, ?_⟩
  · refine ⟨"Could not connect to repository ".data,
      (": " ++ r.ConnectionState.Message).data, ?_⟩
    simp [String.data_append]
  · refine ⟨("Could not connect to repository " ++ (ext.expandRepository d).Repo
        ++ ": ").data, [], ?_⟩
    simp [String.data_append]
  · rw [hrun]; rfl
  · rw [hrun]
  · rw [hrun]

/-- Witness of C1 (amended): the scenario with URL `https://git.example.com/repo.git` and
message `ssh: handshake failed`. -/
theorem create_failed_connection_reports_and_keeps_record_witness :
    ∃ diagnostic : Diagnostic,
      resourceArgoCDRepositoryCreate sampleExternals
          (sampleServer failedConnectionClient (true, none)) sampleRecord
        = ⟨sampleRecord, [Call.CreateRepository
                { Repo := sampleExternals.expandRepository sampleRecord,
                  Upsert := false, CredsOnly := false }],
            Completion.returned (Returned.diagnostics [diagnostic])⟩
      ∧ diagnostic.Severity = Severity.Error
      ∧ (sampleExternals.expandRepository sampleRecord).Repo.data <:+: diagnostic.Summary.data
      ∧ "ssh: handshake failed".data <:+: diagnostic.Summary.data
      ∧ (resourceArgoCDRepositoryCreate sampleExternals
          (sampleServer failedConnectionClient (true, none)) sampleRecord).completion.fatal
          = true
      ∧ (resourceArgoCDRepositoryCreate sampleExternals
          (sampleServer failedConnectionClient (true, none)) sampleRecord).d = sampleRecord
      ∧ (resourceArgoCDRepositoryCreate sampleExternals
          (sampleServer failedConnectionClient (true, none)) sampleRecord).d.Id
          = sampleRecord.Id :=
  create_failed_connection_reports_and_keeps_record sampleExternals
    (sampleServer failedConnectionClient (true, none)) sampleRecord
    { Repo := "https://git.example.com/repo.git",
      ConnectionState := { Status := "Failed", Message := "ssh: handshake failed" } }
    (by decide) (by decide)

/-- C6: when the create call answers with an error, Create makes no other call (Read is not
run), leaves the record as it was, and returns one error-severity diagnostic whose detail is
the text of the error and whose summary contains the repository URL, given that the rendering
of the repository structure shows its `Repo` field. -/
theorem create_transport_error_is_atomic
    (ext : Externals) (server : ServerInterface) (d : ResourceData)
    (r : Option Repository) (err : GoError)
    (hcall : server.RepositoryClient.CreateRepository
      { Repo := ext.expandRepository d, Upsert := false, CredsOnly := false } = (r, some err))
    (hfmt : (ext.expandRepository d).Repo.data
      <:+: (ext.fmtRepository (ext.expandRepository d)).data) :
    ∃ diagnostic : Diagnostic,
      resourceArgoCDRepositoryCreate ext server d
        = ⟨d, [Call.CreateRepository
                { Repo := ext.expandRepository d, Upsert := false, CredsOnly := false }],
            Completion.returned (Returned.diagnostics [diagnostic])⟩
      ∧ diagnostic.Severity = Severity.Error
      ∧ (ext.expandRepository d).Repo.data <:+: diagnostic.Summary.data
      ∧ diagnostic.Detail = err
      ∧ err.data <:+: diagnostic.Detail.data
      ∧ (resourceArgoCDRepositoryCreate ext server d).completion.fatal = true
      ∧ (resourceArgoCDRepositoryCreate ext server d).calls
        = [Call.CreateRepository
            { Repo := ext.expandRepository d, Upsert := false, CredsOnly := false }]
      ∧ (resourceArgoCDRepositoryCreate ext server d).d = d := by
  have hrun : resourceArgoCDRepositoryCreate ext server d
      = ⟨d, [Call.CreateRepository
              { Repo := ext.expandRepository d, Upsert := false, CredsOnly := false }],
          Completion.returned (Returned.diagnostics [
            { Severity := Severity.Error,
              Summary := "Repository " ++ ext.fmtRepository (ext.expandRepository d)
                ++ " not found",
              Detail := err }])⟩ := by
    simp only [resourceArgoCDRepositoryCreate, hcall]
  refine ⟨_, hrun, rfl, ?_, rfl, List.infix_refl _, ?_, ?_, ?_⟩
  · exact List.IsInfix.trans hfmt (infix_append_middle _ _ _)
  · rw [hrun]; rfl
  · rw [hrun]
  · rw [hrun]

/-- Witness of C6: a declared repository whose create call is refused. -/
theorem create_transport_error_is_atomic_witness :
    ∃ diagnostic : Diagnostic,
      resourceArgoCDRepositoryCreate sampleExternals
          (sampleServer deniedClient (true, none)) sampleRecord
        = ⟨sampleRecord, [Call.CreateRepository
                { Repo := sampleExternals.expandRepository sampleRecord,
                  Upsert := false, CredsOnly := false }],
            Completion.returned (Returned.diagnostics [diagnostic])⟩
      ∧ diagnostic.Severity = Severity.Error
      ∧ (sampleExternals.expandRepository sampleRecord).Repo.data <:+: diagnostic.Summary.data
      ∧ diagnostic.Detail = "rpc error: code = PermissionDenied"
      ∧ "rpc error: code = PermissionDenied".data <:+: diagnostic.Detail.data
      ∧ (resourceArgoCDRepositoryCreate sampleExternals
          (sampleServer deniedClient (true, none)) sampleRecord).completion.fatal = true
      ∧ (resourceArgoCDRepositoryCreate sampleExternals
          (sampleServer deniedClient (true, none)) sampleRecord).calls
        = [Call.CreateRepository
            { Repo := sampleExternals.expandRepository sampleRecord,
              Upsert := false, CredsOnly := false }]
      ∧ (resourceArgoCDRepositoryCreate sampleExternals
          (sampleServer deniedClient (true, none)) sampleRecord).d = sampleRecord :=
  create_transport_error_is_atomic sampleExternals (sampleServer deniedClient (true, none))
    sampleRecord none "rpc error: code = PermissionDenied" (by decide) (by decide)

/-! ## Read -/

theorem scanItems_eq_find (id : String) (len : Nat) (rest : List Repository) :
    ∀ i : Nat, rest ≠ [] → i + rest.length = len →
      scanItems id len i rest =
        match rest.find? (fun x => decide (x.Repo = id)) with
        | some x => ScanEnd.matched x
        | none => ScanEnd.cleared := by
  induction rest with
  | nil => intro i h; exact absurd rfl h
  | cons x xs ih =>
    intro i _ hlen
    by_cases hx : x.Repo = id
    · simp [scanItems, hx]
    · cases xs with
      | nil =>
        have hlast : (i : Int) = (len : Int) - 1 := by
          simp only [List.length_singleton] at hlen
          omega
        simp [scanItems, hx, hlast]
      | cons y ys =>
        have hnot : ¬ ((i : Int) = (len : Int) - 1) := by
          simp only [List.length_cons] at hlen
          omega
        have hrec := ih (i + 1) (List.cons_ne_nil y ys)
          (by simp only [List.length_cons] at hlen ⊢; omega)
        rw [scanItems, if_neg hx, if_neg hnot, hrec]
        simp [List.find?_cons, hx]

/-- The list branch of the switch on a list with at least one item: the first item whose
`Repo` equals the identifier is flattened and the identifier kept; with no such item the
identifier is cleared, `nil` is returned and nothing is flattened. -/
theorem readSwitch_list_scan (ext : Externals) (server : ServerInterface) (d : ResourceData)
    (rl : RepositoryList)
    (hcall : server.RepositoryClient.ListRepositories { Repo := d.Id, ForceRefresh := true }
      = (some rl, none))
    (hitems : rl.Items ≠ []) :
    resourceArgoCDRepositoryReadSwitch ext server false d =
      match rl.Items.find? (fun x => decide (x.Repo = d.Id)) with
      | some x =>
        returnFlattenRepository ext
          [Call.ListRepositories { Repo := d.Id, ForceRefresh := true }] (some x) d
      | none =>
        ⟨d.SetId "", [Call.ListRepositories { Repo := d.Id, ForceRefresh := true }],
          Completion.returned Returned.nil⟩ := by
  have hscan := scanItems_eq_find d.Id rl.Items.length rl.Items 0 hitems (by simp)
  simp only [resourceArgoCDRepositoryReadSwitch, hcall, hscan]
  cases rl.Items.find? (fun x => decide (x.Repo = d.Id)) <;> rfl

/-- The list branch of the switch hands a list error back as it is, not-found or not, and
keeps the identifier. -/
theorem readSwitch_list_error (ext : Externals) (server : ServerInterface) (d : ResourceData)
    (rl : Option RepositoryList) (err : GoError)
    (hcall : server.RepositoryClient.ListRepositories { Repo := d.Id, ForceRefresh := true }
      = (rl, some err)) :
    resourceArgoCDRepositoryReadSwitch ext server false d
      = ⟨d, [Call.ListRepositories { Repo := d.Id, ForceRefresh := true }],
          Completion.returned (Returned.error err)⟩ := by
  simp only [resourceArgoCDRepositoryReadSwitch, hcall]

/-- The list branch of the switch on a nil list clears the identifier and returns `nil`. -/
theorem readSwitch_list_nil (ext : Externals) (server : ServerInterface) (d : ResourceData)
    (hcall : server.RepositoryClient.ListRepositories { Repo := d.Id, ForceRefresh := true }
      = (none, none)) :
    resourceArgoCDRepositoryReadSwitch ext server false d
      = ⟨d.SetId "", [Call.ListRepositories { Repo := d.Id, ForceRefresh := true }],
          Completion.returned Returned.nil⟩ := by
  simp only [resourceArgoCDRepositoryReadSwitch, hcall]

/-- The list branch of the switch on a list that is not nil and has no items skips the loop
and flattens the zero repository; the identifier is not cleared by the handler. -/
theorem readSwitch_list_no_items (ext : Externals) (server : ServerInterface)
    (d : ResourceData) (rl : RepositoryList)
    (hcall : server.RepositoryClient.ListRepositories { Repo := d.Id, ForceRefresh := true }
      = (some rl, none))
    (hitems : rl.Items = []) :
    resourceArgoCDRepositoryReadSwitch ext server false d
      = returnFlattenRepository ext
          [Call.ListRepositories { Repo := d.Id, ForceRefresh := true }] (some {}) d := by
  simp only [resourceArgoCDRepositoryReadSwitch, hcall, hitems, scanItems]

/-- C3 (code at the failing inputs): whatever the server and the record, Read stops right after
the probe with the record untouched. When the probe reports an error Read returns the empty
diagnostics, which report no failure; when the probe reports none, Read panics, and neither
`Get` nor `ListRepositories` is called. -/
theorem read_stops_at_probe (ext : Externals) (server : ServerInterface) (d : ResourceData) :
    (resourceArgoCDRepositoryRead ext server d).d = d
    ∧ (resourceArgoCDRepositoryRead ext server d).calls
      = [Call.isFeatureSupported Feature.featureRepositoryGet]
    ∧ (∀ err, (server.isFeatureSupported Feature.featureRepositoryGet).2 = some err →
        (resourceArgoCDRepositoryRead ext server d).completion
            = Completion.returned (Returned.diagnostics [])
          ∧ (resourceArgoCDRepositoryRead ext server d).completion.fatal = false)
    ∧ ((server.isFeatureSupported Feature.featureRepositoryGet).2 = none →
        (resourceArgoCDRepositoryRead ext server d).completion = Completion.panicked)
    ∧ (resourceArgoCDRepositoryRead sampleExternals
        (sampleServer silentClient (false, some "unparsable server version")) storedRecord)
      = ⟨storedRecord, [Call.isFeatureSupported Feature.featureRepositoryGet],
          Completion.returned (Returned.diagnostics [])⟩ := by
  unfold resourceArgoCDRepositoryRead
  rcases hp : server.isFeatureSupported Feature.featureRepositoryGet with ⟨b, _ | e⟩
  · refine ⟨rfl, rfl, ?_, ?_, by decide⟩
    · intro err h; simp at h
    · intro _; rfl
  · refine ⟨rfl, rfl, ?_, ?_, by decide⟩
    · intro err _; exact ⟨rfl, rfl⟩
    · intro h; simp at h

/-- C4 (code at the failing input): direct get unsupported and a list that is not nil and has
no items. Read panics right after the probe with the identifier still set; and the list
branch, run on this input, makes the list call and then flattens the zero repository into the
record, the identifier still set. -/
theorem read_empty_list_not_cleared :
    (sampleServer emptyListClient (false, none)).RepositoryClient.ListRepositories
        { Repo := storedRecord.Id, ForceRefresh := true } = (some { Items := [] }, none)
    ∧ resourceArgoCDRepositoryRead sampleExternals
        (sampleServer emptyListClient (false, none)) storedRecord
      = ⟨storedRecord, [Call.isFeatureSupported Feature.featureRepositoryGet],
          Completion.panicked⟩
    ∧ (resourceArgoCDRepositoryReadSwitch sampleExternals
        (sampleServer emptyListClient (false, none)) false storedRecord).calls
      = [Call.ListRepositories { Repo := "https://git.example.com/repo.git",
                                 ForceRefresh := true },
         Call.flattenRepository (some {})]
    ∧ (resourceArgoCDRepositoryReadSwitch sampleExternals
        (sampleServer emptyListClient (false, none)) false storedRecord).d.Id
      = "https://git.example.com/repo.git" := by
  decide

/-- C10 (code at the failing input): direct get unsupported and a list of three items whose
second and third carry the identifier. Read panics right after the probe: the list is not
asked for and nothing is flattened. The list branch, run on this input, flattens the second
item, the first with that key, and keeps the identifier. -/
theorem read_never_scans_list :
    (sampleServer threeItemsClient (false, none)).isFeatureSupported
        Feature.featureRepositoryGet = (false, none)
    ∧ resourceArgoCDRepositoryRead sampleExternals
        (sampleServer threeItemsClient (false, none)) storedRecord
      = ⟨storedRecord, [Call.isFeatureSupported Feature.featureRepositoryGet],
          Completion.panicked⟩
    ∧ (resourceArgoCDRepositoryReadSwitch sampleExternals
        (sampleServer threeItemsClient (false, none)) false storedRecord).calls
      = [Call.ListRepositories { Repo := "https://git.example.com/repo.git",
                                 ForceRefresh := true },
         Call.flattenRepository
          (some { Repo := "https://git.example.com/repo.git", Username := "first" })]
    ∧ (resourceArgoCDRepositoryReadSwitch sampleExternals
        (sampleServer threeItemsClient (false, none)) false storedRecord).d.Id
      = "https://git.example.com/repo.git" := by
  decide

/-! ## Out-of-band deletion, Update, Delete -/

/-- C2 (as stated, refuted): direct get unsupported and a list call that fails with a
not-found error, on a record whose identifier is set. Read does not end in success and the
identifier stays; the list branch, run on this input, hands the error back and keeps the
identifier. -/
theorem read_list_not_found_is_not_silent :
    (sampleServer notFoundClient (false, none)).RepositoryClient.ListRepositories
        { Repo := storedRecord.Id, ForceRefresh := true }
      = (none, some "rpc error: code = NotFound desc = repo not found")
    ∧ stringsContains "rpc error: code = NotFound desc = repo not found" "NotFound" = true
    ∧ storedRecord.Id ≠ ""
    ∧ (resourceArgoCDRepositoryRead sampleExternals
        (sampleServer notFoundClient (false, none)) storedRecord).completion.succeeded = false
    ∧ (resourceArgoCDRepositoryRead sampleExternals
        (sampleServer notFoundClient (false, none)) storedRecord).d.Id ≠ ""
    ∧ (resourceArgoCDRepositoryReadSwitch sampleExternals
        (sampleServer notFoundClient (false, none)) false storedRecord).completion
      = Completion.returned
          (Returned.error "rpc error: code = NotFound desc = repo not found")
    ∧ (resourceArgoCDRepositoryReadSwitch sampleExternals
        (sampleServer notFoundClient (false, none)) false storedRecord).d.Id ≠ "" := by
  decide

/-- C2 (amended): when the remote call fails with an error whose text contains `NotFound`,
Update and Delete return without an error and leave the identifier empty, and so does the
direct-get branch of the switch of Read when it is run. -/
theorem not_found_clears_identifier
    (ext : Externals) (server : ServerInterface) (d : ResourceData) (err : GoError)
    (hnotfound : stringsContains err "NotFound" = true) :
    (∀ r, server.RepositoryClient.UpdateRepository { Repo := ext.expandRepository d }
          = (r, some err) →
        (resourceArgoCDRepositoryUpdate ext server d).completion
            = Completion.returned Returned.nil
          ∧ (resourceArgoCDRepositoryUpdate ext server d).completion.succeeded = true
          ∧ (resourceArgoCDRepositoryUpdate ext server d).d.Id = "")
    ∧ (server.RepositoryClient.DeleteRepository { Repo := d.Id } = some err →
        (resourceArgoCDRepositoryDelete ext server d).completion
            = Completion.returned (Returned.diagnostics [])
          ∧ (resourceArgoCDRepositoryDelete ext server d).completion.succeeded = true
          ∧ (resourceArgoCDRepositoryDelete ext server d).d.Id = "")
    ∧ (∀ r, server.RepositoryClient.Get { Repo := d.Id, ForceRefresh := true }
          = (r, some err) →
        (resourceArgoCDRepositoryReadSwitch ext server true d).completion
            = Completion.returned Returned.nil
          ∧ (resourceArgoCDRepositoryReadSwitch ext server true d).completion.succeeded = true
          ∧ (resourceArgoCDRepositoryReadSwitch ext server true d).d.Id = "") := by
  refine ⟨?_, ?_, ?_⟩
  · intro r hcall
    have hrun : resourceArgoCDRepositoryUpdate ext server d
        = ⟨d.SetId "", [Call.UpdateRepository { Repo := ext.expandRepository d }],
            Completion.returned Returned.nil⟩ := by
      simp only [resourceArgoCDRepositoryUpdate, hcall, hnotfound, if_true]
    rw [hrun]
    exact ⟨rfl, rfl, rfl⟩
  · intro hcall
    have hrun : resourceArgoCDRepositoryDelete ext server d
        = ⟨d.SetId "", [Call.DeleteRepository { Repo := d.Id }],
            Completion.returned (Returned.diagnostics [])⟩ := by
      simp only [resourceArgoCDRepositoryDelete, hcall, hnotfound, if_true]
    rw [hrun]
    exact ⟨rfl, rfl, rfl⟩
  · intro r hcall
    have hrun : resourceArgoCDRepositoryReadSwitch ext server true d
        = ⟨d.SetId "", [Call.Get { Repo := d.Id, ForceRefresh := true }],
            Completion.returned Returned.nil⟩ := by
      simp only [resourceArgoCDRepositoryReadSwitch, hcall, hnotfound, if_true]
    rw [hrun]
    exact ⟨rfl, rfl, rfl⟩

/-- Witness of C2 (amended): the stored record against a client whose calls all fail with a
not-found error. -/
theorem not_found_clears_identifier_witness :
    stringsContains "rpc error: code = NotFound desc = repo not found" "NotFound" = true
    ∧ ((resourceArgoCDRepositoryUpdate sampleExternals
          (sampleServer notFoundClient (true, none)) storedRecord).completion
        = Completion.returned Returned.nil
      ∧ (resourceArgoCDRepositoryUpdate sampleExternals
          (sampleServer notFoundClient (true, none)) storedRecord).completion.succeeded = true
      ∧ (resourceArgoCDRepositoryUpdate sampleExternals
          (sampleServer notFoundClient (true, none)) storedRecord).d.Id = "")
    ∧ ((resourceArgoCDRepositoryDelete sampleExternals
          (sampleServer notFoundClient (true, none)) storedRecord).completion
        = Completion.returned (Returned.diagnostics [])
      ∧ (resourceArgoCDRepositoryDelete sampleExternals
          (sampleServer notFoundClient (true, none)) storedRecord).completion.succeeded = true
      ∧ (resourceArgoCDRepositoryDelete sampleExternals
          (sampleServer notFoundClient (true, none)) storedRecord).d.Id = "")
    ∧ ((resourceArgoCDRepositoryReadSwitch sampleExternals
          (sampleServer notFoundClient (true, none)) true storedRecord).completion
        = Completion.returned Returned.nil
      ∧ (resourceArgoCDRepositoryReadSwitch sampleExternals
          (sampleServer notFoundClient (true, none)) true storedRecord).completion.succeeded
        = true
      ∧ (resourceArgoCDRepositoryReadSwitch sampleExternals
          (sampleServer notFoundClient (true, none)) true storedRecord).d.Id = "") :=
  ⟨by decide,
   (not_found_clears_identifier sampleExternals (sampleServer notFoundClient (true, none))
      storedRecord "rpc error: code = NotFound desc = repo not found" (by decide)).1
      none (by decide),
   (not_found_clears_identifier sampleExternals (sampleServer notFoundClient (true, none))
      storedRecord "rpc error: code = NotFound desc = repo not found" (by decide)).2.1
      (by decide),
   (not_found_clears_identifier sampleExternals (sampleServer notFoundClient (true, none))
      storedRecord "rpc error: code = NotFound desc = repo not found" (by decide)).2.2
      none (by decide)⟩

/-- Delete, in general: it reports a failure exactly when the delete call gave an error whose
text does not contain `NotFound`; then the record is untouched, the detail is the text of the
error and the summary is built from the rendering of the whole record; otherwise the
identifier is cleared and the empty diagnostics are returned. -/
theorem delete_outcome (ext : Externals) (server : ServerInterface) (d : ResourceData) :
    ((resourceArgoCDRepositoryDelete ext server d).completion.fatal = true ↔
      ∃ err, server.RepositoryClient.DeleteRepository { Repo := d.Id } = some err
        ∧ stringsContains err "NotFound" = false)
    ∧ (∀ err, server.RepositoryClient.DeleteRepository { Repo := d.Id } = some err →
        stringsContains err "NotFound" = false →
        resourceArgoCDRepositoryDelete ext server d
          = ⟨d, [Call.DeleteRepository { Repo := d.Id }],
              Completion.returned (Returned.diagnostics [
                { Severity := Severity.Error,
                  Summary := "Repository " ++ ext.fmtResourceData d ++ " not found",
                  Detail := err }])⟩)
    ∧ ((resourceArgoCDRepositoryDelete ext server d).completion.fatal = false →
        resourceArgoCDRepositoryDelete ext server d
          = ⟨d.SetId "", [Call.DeleteRepository { Repo := d.Id }],
              Completion.returned (Returned.diagnostics [])⟩) := by
  rcases hcall : server.RepositoryClient.DeleteRepository { Repo := d.Id } with _ | e
  · have hrun : resourceArgoCDRepositoryDelete ext server d
        = ⟨d.SetId "", [Call.DeleteRepository { Repo := d.Id }],
            Completion.returned (Returned.diagnostics [])⟩ := by
      simp only [resourceArgoCDRepositoryDelete, hcall]
    rw [hrun]
    simp [Completion.fatal, Returned.hasError]
  · by_cases hnf : stringsContains e "NotFound" = true
    · have hrun : resourceArgoCDRepositoryDelete ext server d
          = ⟨d.SetId "", [Call.DeleteRepository { Repo := d.Id }],
              Completion.returned (Returned.diagnostics [])⟩ := by
        simp only [resourceArgoCDRepositoryDelete, hcall, hnf, if_true]
      rw [hrun]
      simp [Completion.fatal, Returned.hasError, hnf]
    · have hfalse : stringsContains e "NotFound" = false := by simpa using hnf
      have hrun : resourceArgoCDRepositoryDelete ext server d
          = ⟨d, [Call.DeleteRepository { Repo := d.Id }],
              Completion.returned (Returned.diagnostics [
                { Severity := Severity.Error,
                  Summary := "Repository " ++ ext.fmtResourceData d ++ " not found",
                  Detail := e }])⟩ := by
        simp [resourceArgoCDRepositoryDelete, hcall, hfalse]
      rw [hrun]
      simp [Completion.fatal, Returned.hasError, hfalse]

/-- C7: Delete returns a fatal diagnostic exactly when the delete call gave an error whose text
does not contain `NotFound`. In that case there is one error-severity diagnostic, its summary
contains the identifier, its detail is the text of the error, and the record keeps its
identifier. In every other case, success or a not-found error, the identifier is the empty
string afterwards and the empty diagnostics are returned. The summary is built from the
rendering of the record, which is taken to show the identifier. -/
theorem delete_outcome_characterisation
    (ext : Externals) (server : ServerInterface) (d : ResourceData)
    (hfmt : d.Id.data <:+: (ext.fmtResourceData d).data) :
    ((resourceArgoCDRepositoryDelete ext server d).completion.fatal = true ↔
      ∃ err, server.RepositoryClient.DeleteRepository { Repo := d.Id } = some err
        ∧ stringsContains err "NotFound" = false)
    ∧ (∀ err, server.RepositoryClient.DeleteRepository { Repo := d.Id } = some err →
        stringsContains err "NotFound" = false →
        ∃ diagnostic : Diagnostic,
          resourceArgoCDRepositoryDelete ext server d
            = ⟨d, [Call.DeleteRepository { Repo := d.Id }],
                Completion.returned (Returned.diagnostics [diagnostic])⟩
          ∧ diagnostic.Severity = Severity.Error
          ∧ d.Id.data <:+: diagnostic.Summary.data
          ∧ diagnostic.Detail = err
          ∧ err.data <:+: diagnostic.Detail.data
          ∧ (resourceArgoCDRepositoryDelete ext server d).d.Id = d.Id)
    ∧ ((¬ ∃ err, server.RepositoryClient.DeleteRepository { Repo := d.Id } = some err
          ∧ stringsContains err "NotFound" = false) →
        resourceArgoCDRepositoryDelete ext server d
            = ⟨d.SetId "", [Call.DeleteRepository { Repo := d.Id }],
                Completion.returned (Returned.diagnostics [])⟩
          ∧ (resourceArgoCDRepositoryDelete ext server d).d.Id = ""
          ∧ (resourceArgoCDRepositoryDelete ext server d).completion.fatal = false) := by
  obtain ⟨hiff, hfatal, hquiet⟩ := delete_outcome ext server d
  refine ⟨hiff, ?_, ?_⟩
  · intro err hcall hnf
    have hrun := hfatal err hcall hnf
    refine ⟨_, hrun, rfl, ?_, rfl, List.infix_refl _, ?_⟩
    · exact List.IsInfix.trans hfmt (infix_append_middle _ _ _)
    · rw [hrun]
  · intro hnone
    have hnot : (resourceArgoCDRepositoryDelete ext server d).completion.fatal = false := by
      cases hf : (resourceArgoCDRepositoryDelete ext server d).completion.fatal
      · rfl
      · exact absurd (hiff.mp hf) hnone
    have hrun := hquiet hnot
    refine ⟨hrun, ?_, hnot⟩
    rw [hrun]
    rfl

/-- Witness of C7: the stored record against a client that refuses the delete call. -/
theorem delete_outcome_characterisation_witness :
    storedRecord.Id.data <:+: (sampleExternals.fmtResourceData storedRecord).data
    ∧ (sampleServer deniedClient (true, none)).RepositoryClient.DeleteRepository
        { Repo := storedRecord.Id } = some "rpc error: code = PermissionDenied"
    ∧ stringsContains "rpc error: code = PermissionDenied" "NotFound" = false
    ∧ ∃ diagnostic : Diagnostic,
        resourceArgoCDRepositoryDelete sampleExternals
            (sampleServer deniedClient (true, none)) storedRecord
          = ⟨storedRecord, [Call.DeleteRepository { Repo := storedRecord.Id }],
              Completion.returned (Returned.diagnostics [diagnostic])⟩
        ∧ diagnostic.Severity = Severity.Error
        ∧ storedRecord.Id.data <:+: diagnostic.Summary.data
        ∧ diagnostic.Detail = "rpc error: code = PermissionDenied"
        ∧ "rpc error: code = PermissionDenied".data <:+: diagnostic.Detail.data
        ∧ (resourceArgoCDRepositoryDelete sampleExternals
            (sampleServer deniedClient (true, none)) storedRecord).d.Id = storedRecord.Id :=
  ⟨by decide, by decide, by decide,
    (delete_outcome_characterisation sampleExternals (sampleServer deniedClient (true, none))
      storedRecord (by decide)).2.1 "rpc error: code = PermissionDenied"
      (by decide) (by decide)⟩

/-- C8 (code at the failing input): the remote call answers with no error and a nil
repository. Create returns one error-severity diagnostic, makes no further call and leaves
the record as it was; Update panics, for every record and server with such an answer. -/
theorem update_nil_payload_panics :
    (∀ (ext : Externals) (server : ServerInterface) (d : ResourceData),
      (server.RepositoryClient.CreateRepository
          { Repo := ext.expandRepository d, Upsert := false, CredsOnly := false }
          = (none, none) →
        resourceArgoCDRepositoryCreate ext server d
          = ⟨d, [Call.CreateRepository
                  { Repo := ext.expandRepository d, Upsert := false, CredsOnly := false }],
              Completion.returned (Returned.diagnostics [
                { Severity := Severity.Error,
                  Summary := "ArgoCD did not return an error or a repository result" }])⟩)
      ∧ (server.RepositoryClient.UpdateRepository { Repo := ext.expandRepository d }
          = (none, none) →
        resourceArgoCDRepositoryUpdate ext server d
          = ⟨d, [Call.UpdateRepository { Repo := ext.expandRepository d }],
              Completion.panicked⟩))
    ∧ resourceArgoCDRepositoryUpdate sampleExternals
        (sampleServer silentClient (true, none)) storedRecord
      = ⟨storedRecord,
          [Call.UpdateRepository { Repo := { Repo := "https://git.example.com/repo.git" } }],
          Completion.panicked⟩
    ∧ (resourceArgoCDRepositoryUpdate sampleExternals
        (sampleServer silentClient (true, none)) storedRecord).completion.fatal = false := by
  refine ⟨fun ext server d => ⟨fun h => ?_, fun h => ?_⟩, by decide, by decide⟩
  · simp only [resourceArgoCDRepositoryCreate, h]
  · simp only [resourceArgoCDRepositoryUpdate, h]

/-! ## Witnesses of the field mapper -/

/-- Witness of C5: remote credentials with all three secrets filled, flattened once in
reverse map order and then twice more, into a record that declares its own secrets. -/
theorem flattenRepositoryCredentials_never_touches_secrets_witness :
    (∀ k v d k2, k2 ≠ k → ((samplePersistToState k v d).1).field k2 = d.field k2)
    ∧ sampleCredsRecord.field "password" = some "s3cret"
    ∧ (((flattenRepositoryCredentials samplePersistToState List.reverse sampleRemoteCreds
            sampleCredsRecord).1).field "password" = sampleCredsRecord.field "password"
        ∧ ((flattenRepositoryCredentials samplePersistToState List.reverse sampleRemoteCreds
            sampleCredsRecord).1).field "ssh_private_key"
          = sampleCredsRecord.field "ssh_private_key"
        ∧ ((flattenRepositoryCredentials samplePersistToState List.reverse sampleRemoteCreds
            sampleCredsRecord).1).field "tls_client_cert_key"
          = sampleCredsRecord.field "tls_client_cert_key")
      ∧ ((flattenRepositoryCredentialsRepeated samplePersistToState
            [(id, sampleRemoteCreds), (List.reverse, sampleRemoteCreds)]
            sampleCredsRecord).field "password" = sampleCredsRecord.field "password"
        ∧ (flattenRepositoryCredentialsRepeated samplePersistToState
            [(id, sampleRemoteCreds), (List.reverse, sampleRemoteCreds)]
            sampleCredsRecord).field "ssh_private_key"
          = sampleCredsRecord.field "ssh_private_key"
        ∧ (flattenRepositoryCredentialsRepeated samplePersistToState
            [(id, sampleRemoteCreds), (List.reverse, sampleRemoteCreds)]
            sampleCredsRecord).field "tls_client_cert_key"
          = sampleCredsRecord.field "tls_client_cert_key") :=
  ⟨samplePersistToState_frame, by decide,
    flattenRepositoryCredentials_never_touches_secrets samplePersistToState
      samplePersistToState_frame List.reverse List.reverse_perm
      [(id, sampleRemoteCreds), (List.reverse, sampleRemoteCreds)]
      (by
        intro p hp l
        simp only [List.mem_cons, List.mem_singleton, List.not_mem_nil, or_false] at hp
        rcases hp with rfl | rfl
        · exact List.Perm.refl l
        · exact List.reverse_perm l)
      sampleRemoteCreds sampleCredsRecord⟩

/-- Witness of C9: a record that sets `url`, `username`, `password`, `ssh_private_key` and
`tls_client_cert_key` and leaves `tls_client_cert_data` unset, compared with the record that
only differs in its identifier. -/
theorem expandRepositoryCredentials_copies_set_fields_witness :
    expandRepositoryCredentials sampleCredsRecord
      = { URL := "https://git.example.com", Username := "me", Password := "s3cret",
          SSHPrivateKey := "my-ssh-key", TLSClientCertData := "",
          TLSClientCertKey := "my-cert-key" }
    ∧ (expandRepositoryCredentials (sampleCredsRecord.SetId "")).URL
      = (expandRepositoryCredentials sampleCredsRecord).URL :=
  ⟨by decide,
    ((expandRepositoryCredentials_copies_set_fields sampleCredsRecord).2
      (sampleCredsRecord.SetId "")).1 (by decide)⟩

end Argocd
